import Mathlib

/-!
Verification of the PyTCP stack core against its natural-language
specification.  Each section embeds the relevant Python source
(pytcp/...) as executable Lean definitions and settles one claim
about it.  Bytes are modelled as natural numbers below 256, machine
integers as Nat/Int with explicit bounds where overflow matters.
-/

namespace PyTCP

/-! ### TCP inbound handler, no-socket-match path
Embedding of TcpPacketHandlerRx._phrx_tcp
(pytcp/protocols/tcp/tcp__packet_handler_rx.py, lines 133-207):
the dispatch decision taken after a segment parsed successfully.
The socket-table lookups are abstracted into the two Booleans
activeMatch (stack.sockets.get(str(packet_rx_md)) hit) and
listeningMatch (some listening-socket pattern hit). -/

/-- Fields of TcpMetadata used by the no-match path: flags, seq, ack
and the payload length. -/
structure TcpSegMd where
  seq : Nat
  ack : Nat
  flagSyn : Bool
  flagAck : Bool
  flagFin : Bool
  flagRst : Bool
  payloadLen : Nat
deriving DecidableEq, Repr

/-- Arguments of the _phtx_tcp call that sends the RST response. -/
structure TcpRstReply where
  seq : Nat
  ack : Nat
  flagRst : Bool
  flagAck : Bool
deriving DecidableEq, Repr

/-- Possible outcomes of the _phrx_tcp dispatch. -/
inductive TcpRxDisposition where
  | toActiveSocket
  | toListeningSocket
  | dropSilently
  | replyRst (reply : TcpRstReply)
deriving DecidableEq, Repr

/-- Embedding of the dispatch logic of TcpPacketHandlerRx._phrx_tcp:
active-socket match forwards; a pure SYN matching a listening socket
forwards; otherwise an RST-bearing segment is dropped silently and any
other segment elicits _phtx_tcp(tcp__seq=0, tcp__ack=seq+syn+fin+len,
tcp__flag_rst=True, tcp__flag_ack=True). -/
def phrxTcpDispatch (activeMatch listeningMatch : Bool) (seg : TcpSegMd) :
    TcpRxDisposition :=
  if activeMatch then
    .toActiveSocket
  else if (seg.flagSyn && !(seg.flagAck || seg.flagFin || seg.flagRst))
      && listeningMatch then
    .toListeningSocket
  else if seg.flagRst then
    .dropSilently
  else
    .replyRst
      { seq := 0
        ack := seg.seq + (if seg.flagSyn then 1 else 0)
          + (if seg.flagFin then 1 else 0) + seg.payloadLen
        flagRst := true
        flagAck := true }

/-- A no-match inbound segment carrying ACK (ack=12345): the claim says
the RST reply must use seg.ack=12345 as its sequence number, but the
code replies with seq=0 and ack=1000 regardless of the ACK flag. -/
theorem tcp_no_match_rst_seq_counterexample :
    phrxTcpDispatch false false
        { seq := 1000, ack := 12345, flagSyn := false, flagAck := true,
          flagFin := false, flagRst := false, payloadLen := 0 }
      = .replyRst { seq := 0, ack := 1000, flagRst := true, flagAck := true }
    ∧ (0 : Nat) ≠ 12345 := by
  constructor
  · rfl
  · decide

/-- C1 (amended): for every inbound TCP segment matching no active and
no listening socket, an RST-bearing segment is dropped silently, and
every other segment (whether or not ACK is set) elicits a reply with
flags RST|ACK, seq = 0 and ack = seg.seq + (SYN?1:0) + (FIN?1:0) +
seg.len; in particular an inbound SYN with seq=1000 to a closed port
elicits RST|ACK, seq=0, ack=1001. -/
theorem tcp_no_socket_match_rst_reply (seg : TcpSegMd) :
    (seg.flagRst = true →
      phrxTcpDispatch false false seg = .dropSilently)
    ∧ (seg.flagRst = false →
      phrxTcpDispatch false false seg
        = .replyRst
            { seq := 0
              ack := seg.seq + (if seg.flagSyn then 1 else 0)
                + (if seg.flagFin then 1 else 0) + seg.payloadLen
              flagRst := true
              flagAck := true }) := by
  constructor
  · intro h
    simp [phrxTcpDispatch, h]
  · intro h
    simp [phrxTcpDispatch, h]

/-- Witness: the SYN-to-closed-port scenario of the claim, seq=1000,
no ACK/FIN/RST, empty payload, elicits RST|ACK with seq=0, ack=1001. -/
theorem tcp_no_socket_match_rst_reply_witness :
    phrxTcpDispatch false false
        { seq := 1000, ack := 0, flagSyn := true, flagAck := false,
          flagFin := false, flagRst := false, payloadLen := 0 }
      = .replyRst { seq := 0, ack := 1001, flagRst := true, flagAck := true } :=
  (tcp_no_socket_match_rst_reply
    { seq := 1000, ack := 0, flagSyn := true, flagAck := false,
      flagFin := false, flagRst := false, payloadLen := 0 }).2 rfl

/-! ### IPv6 addresses
The class Ip6Address (pytcp/lib/net_addr/ip6_address.py) is not among
the provided sources; its predicates are modelled from the spec. -/

/-- An IPv6 address: a 128-bit unsigned integer. -/
abbrev Ip6Addr := Nat

/-- Modelled from the spec: the unspecified IPv6 address is all zeros
(src/pytcp/lib/net_addr/ip6_address.py is absent from the sources). -/
def Ip6Addr.isUnspecified (a : Ip6Addr) : Bool := a == 0

/-- Modelled from the spec: IPv6 multicast addresses occupy ff00::/8
(src/pytcp/lib/net_addr/ip6_address.py is absent from the sources). -/
def Ip6Addr.isMulticast (a : Ip6Addr) : Bool := a / 2 ^ 120 == 0xff

/-- Modelled from the spec: link-local addresses lie in fe80::/10
(src/pytcp/lib/net_addr/ip6_address.py is absent from the sources). -/
def Ip6Addr.isLinkLocal (a : Ip6Addr) : Bool := a / 2 ^ 118 == 0x3fa

/-- Modelled from the spec: a unicast IPv6 address is one that is
neither multicast nor unspecified (src/pytcp/lib/net_addr/ip6_address.py
is absent from the sources). -/
def Ip6Addr.isUnicast (a : Ip6Addr) : Bool :=
  !a.isMulticast && !a.isUnspecified

/-- Modelled from the spec glossary: the solicited-node multicast
address is ff02::1:ff00:0/104 with the low 24 bits of the target
address appended. -/
def Ip6Addr.solicitedNodeMulticast (a : Ip6Addr) : Ip6Addr :=
  0xff0200000000000000000001ff000000 ||| a % 2 ^ 24

/-- The all-routers multicast address ff02::2. -/
def ip6AllRouters : Ip6Addr := 0xff020000000000000000000000000002

/-- The all-nodes multicast address ff02::1. -/
def ip6AllNodes : Ip6Addr := 0xff020000000000000000000000000001

/-! ### ICMPv6 parser
Embedding of Icmp6Parser (pytcp/protocols/icmp6/icmp6__parser.py):
the _parse dispatch on the type byte and the _validate_sanity checks.
The per-message from_bytes calls are abstracted: the fields each
message class would extract from the frame (ND target address, SLLA
option presence, NA S-flag) are taken as given inputs so that the
dispatch and the sanity rules are embedded exactly. -/

/-- The ICMPv6 message as produced by Icmp6Parser._parse, carrying the
fields that Icmp6Parser._validate_sanity reads.  The mld2Report arm
corresponds to Icmp6Mld2ReportMessage, which _validate_sanity tests
for. -/
inductive Icmp6Message where
  | destinationUnreachable
  | echoRequest
  | echoReply
  | ndRouterSolicitation (optionSlla : Bool)
  | ndRouterAdvertisement
  | ndNeighborSolicitation (targetAddress : Ip6Addr) (optionSlla : Bool)
  | ndNeighborAdvertisement (flagS : Bool)
  | mld2Report
  | unknown (typeByte : Nat)
deriving DecidableEq, Repr

/-- Per-type fields a frame would yield if parsed by the respective
message class (abstraction of the from_bytes calls in _parse). -/
structure Icmp6FrameFields where
  typeByte : Nat
  rsOptionSlla : Bool
  nsTargetAddress : Ip6Addr
  nsOptionSlla : Bool
  naFlagS : Bool
deriving DecidableEq, Repr

/-- Embedding of the match statement of Icmp6Parser._parse.  Type-code
values (1, 128, 129, 133, 134, 135, 136) follow RFC 4443/4861; the
MLDv2 Report code 143 (0x8f) is witnessed by the first byte of the
packets in tests/unit/protocols/icmp6/
test__icmp6__mld2__report__parser__sanity_checks.py.  The match in the
source has no arm for Icmp6Type.MLD2__REPORT, so a frame with type
byte 143 falls through to the Icmp6UnknownMessage arm. -/
def icmp6Parse (f : Icmp6FrameFields) : Icmp6Message :=
  if f.typeByte == 1 then .destinationUnreachable
  else if f.typeByte == 128 then .echoRequest
  else if f.typeByte == 129 then .echoReply
  else if f.typeByte == 133 then .ndRouterSolicitation f.rsOptionSlla
  else if f.typeByte == 134 then .ndRouterAdvertisement
  else if f.typeByte == 135 then
    .ndNeighborSolicitation f.nsTargetAddress f.nsOptionSlla
  else if f.typeByte == 136 then .ndNeighborAdvertisement f.naFlagS
  else .unknown f.typeByte

/-- The sanity errors Icmp6Parser._validate_sanity can raise, one per
raise site, in source order. -/
inductive Icmp6SanityError where
  | rsHopNot255
  | rsSrcNotUnicastOrUnspecified
  | rsDstNotAllRouters
  | rsSllaWithUnspecifiedSrc
  | raHopNot255
  | raSrcNotLinkLocal
  | raDstNotUnicastOrAllNodes
  | nsHopNot255
  | nsSrcNotUnicastOrUnspecified
  | nsDstNotTargetOrSolicitedNode
  | nsTargetNotUnicast
  | nsSllaWithUnspecifiedSrc
  | naHopNot255
  | naSrcNotUnicast
  | naFlagSetDstNotUnicastOrAllNodes
  | naFlagClearDstNotAllNodes
  | mld2HopNot1
deriving DecidableEq, Repr

/-- IPv6 context the ICMPv6 parser captures from the enclosing packet
(self._ip6__src, self._ip6__dst, self._ip6__hop). -/
structure Ip6RxContext where
  src : Ip6Addr
  dst : Ip6Addr
  hop : Nat
deriving DecidableEq, Repr

/-- Embedding of Icmp6Parser._validate_sanity: returns the first sanity
error raised, or none when the message passes.  Messages matching no
isinstance block (including Icmp6UnknownMessage) pass unchecked. -/
def icmp6ValidateSanity (msg : Icmp6Message) (ctx : Ip6RxContext) :
    Option Icmp6SanityError :=
  match msg with
  | .destinationUnreachable => none
  | .echoRequest => none
  | .echoReply => none
  | .ndRouterSolicitation optionSlla =>
    if ¬ ctx.hop = 255 then some .rsHopNot255
    else if ¬ (ctx.src.isUnicast || ctx.src.isUnspecified) then
      some .rsSrcNotUnicastOrUnspecified
    else if ¬ ctx.dst = ip6AllRouters then some .rsDstNotAllRouters
    else if ctx.src.isUnspecified && optionSlla then
      some .rsSllaWithUnspecifiedSrc
    else none
  | .ndRouterAdvertisement =>
    if ¬ ctx.hop = 255 then some .raHopNot255
    else if ¬ ctx.src.isLinkLocal then some .raSrcNotLinkLocal
    else if ¬ (ctx.dst.isUnicast || ctx.dst == ip6AllNodes) then
      some .raDstNotUnicastOrAllNodes
    else none
  | .ndNeighborSolicitation targetAddress optionSlla =>
    if ¬ ctx.hop = 255 then some .nsHopNot255
    else if ¬ (ctx.src.isUnicast || ctx.src.isUnspecified) then
      some .nsSrcNotUnicastOrUnspecified
    else if ¬ (ctx.dst = targetAddress
        ∨ ctx.dst = targetAddress.solicitedNodeMulticast) then
      some .nsDstNotTargetOrSolicitedNode
    else if ¬ targetAddress.isUnicast then some .nsTargetNotUnicast
    else if ctx.src.isUnspecified && optionSlla then
      some .nsSllaWithUnspecifiedSrc
    else none
  | .ndNeighborAdvertisement flagS =>
    if ¬ ctx.hop = 255 then some .naHopNot255
    else if ¬ ctx.src.isUnicast then some .naSrcNotUnicast
    else if flagS && ¬ (ctx.dst.isUnicast || ctx.dst == ip6AllNodes) then
      some .naFlagSetDstNotUnicastOrAllNodes
    else if !flagS && ¬ ctx.dst = ip6AllNodes then
      some .naFlagClearDstNotAllNodes
    else none
  | .mld2Report =>
    if ¬ ctx.hop = 1 then some .mld2HopNot1
    else none
  | .unknown _ => none

/-- C2 (code bug): the frame of the repository's own MLDv2 sanity test
(type byte 0x8f, IPv6 hop limit 64) is dispatched by _parse to the
Icmp6UnknownMessage arm, not to Icmp6Mld2ReportMessage, so
_validate_sanity raises no error at all: the hop-limit-1 rule for
MLDv2 Reports is dead code and the packet is accepted. -/
theorem icmp6_mld2_report_sanity_dead_code :
    icmp6Parse
        { typeByte := 0x8f, rsOptionSlla := false, nsTargetAddress := 0,
          nsOptionSlla := false, naFlagS := false }
      = .unknown 0x8f
    ∧ icmp6ValidateSanity (.unknown 0x8f)
        { src := 0xfe800000000000000000000000000001,
          dst := 0xff020000000000000000000000000016, hop := 64 }
      = none
    ∧ icmp6ValidateSanity .mld2Report
        { src := 0xfe800000000000000000000000000001,
          dst := 0xff020000000000000000000000000016, hop := 64 }
      = some .mld2HopNot1 := by
  refine ⟨by decide, rfl, by decide⟩

/-- C3: a frame with type byte 135 parses to a Neighbor Solicitation,
and the NS passes Icmp6Parser._validate_sanity exactly when the hop
limit is 255, the source is unicast or unspecified, the destination is
the target address or its solicited-node multicast, the target is
unicast, and an unspecified source carries no SLLA option. -/
theorem icmp6_ns_sanity_characterization (target : Ip6Addr)
    (optionSlla : Bool) (ctx : Ip6RxContext) (rsSlla naS : Bool) :
    icmp6Parse
        { typeByte := 135, rsOptionSlla := rsSlla,
          nsTargetAddress := target, nsOptionSlla := optionSlla,
          naFlagS := naS }
      = .ndNeighborSolicitation target optionSlla
    ∧ (icmp6ValidateSanity (.ndNeighborSolicitation target optionSlla) ctx
        = none
      ↔ ctx.hop = 255
        ∧ (ctx.src.isUnicast = true ∨ ctx.src.isUnspecified = true)
        ∧ (ctx.dst = target ∨ ctx.dst = target.solicitedNodeMulticast)
        ∧ target.isUnicast = true
        ∧ (ctx.src.isUnspecified = true → optionSlla = false)) := by
  constructor
  · rfl
  · simp only [icmp6ValidateSanity]
    split
    · rename_i h
      simp only [reduceCtorEq, false_iff]
      intro hc
      exact h hc.1
    · split
      · rename_i h
        simp only [reduceCtorEq, false_iff]
        intro hc
        rcases hc.2.1 with h1 | h1 <;> simp [h1] at h
      · split
        · rename_i h
          simp only [reduceCtorEq, false_iff]
          intro hc
          exact h hc.2.2.1
        · split
          · rename_i h
            simp only [reduceCtorEq, false_iff]
            intro hc
            exact h hc.2.2.2.1
          · split
            · rename_i h
              simp only [reduceCtorEq, false_iff]
              intro hc
              rw [Bool.and_eq_true] at h
              exact absurd (hc.2.2.2.2 h.1) (by simp [h.2])
            · rename_i h1 h2 h3 h4 h5
              simp only [true_iff]
              refine ⟨not_not.mp h1, ?_, not_not.mp h3, not_not.mp h4, ?_⟩
              · rcases Bool.or_eq_true _ _ |>.mp (not_not.mp h2) with h | h
                · exact Or.inl h
                · exact Or.inr h
              · intro hu
                simp only [hu, Bool.true_and] at h5
                exact Bool.not_eq_true _ |>.mp h5

/-- Witness: a Neighbor Solicitation for the unicast target
2001:db8::1, sent from the link-local unicast fe80::1 directly to the
target address with hop limit 255 and no SLLA option, passes the
sanity validation. -/
theorem icmp6_ns_sanity_characterization_witness :
    icmp6ValidateSanity
        (.ndNeighborSolicitation 0x20010db8000000000000000000000001 false)
        { src := 0xfe800000000000000000000000000001,
          dst := 0x20010db8000000000000000000000001, hop := 255 }
      = none :=
  (icmp6_ns_sanity_characterization 0x20010db8000000000000000000000001
      false
      { src := 0xfe800000000000000000000000000001,
        dst := 0x20010db8000000000000000000000001, hop := 255 }
      false false).2.mpr
    ⟨rfl, Or.inl (by decide), Or.inl rfl, by decide,
      fun h => absurd h (by decide)⟩

/-! ### TCP Wscale option parsing
The module pytcp/protocols/tcp/options/tcp_option__wscale.py is absent
from the provided sources; only its unit tests are present.  The
parser is modelled from the spec and the behaviour pinned down by
tests/unit/protocols/tcp/test__tcp__option__wscale.py: minimum-length
and type asserts, two length integrity checks, then the value byte is
clamped to the maximum of 14. -/

/-- Maximum value of the TCP Wscale option (RFC 7323 / spec section 6). -/
def TCP__OPTION__WSCALE__MAX_VALUE : Nat := 14

/-- Wire length of the TCP Wscale option. -/
def TCP__OPTION__WSCALE__LEN : Nat := 3

/-- Kind byte of the TCP Wscale option (kind 3). -/
def TCP__OPTION__WSCALE__TYPE : Nat := 3

/-- Outcome of TcpOptionWscale.from_bytes: the parsed wscale value, an
AssertionError (length below 2 or wrong type byte), or a
TcpIntegrityError (length byte not 3, or exceeding the buffer). -/
inductive TcpOptionWscaleParseResult where
  | ok (wscale : Nat)
  | assertionError
  | integrityError
deriving DecidableEq, Repr

/-- Modelled from the spec: TcpOptionWscale.from_bytes
(pytcp/protocols/tcp/options/tcp_option__wscale.py is absent from the
sources).  Per the spec, Wscale values above 14 MUST be clamped to 14
on parse; the check order and error kinds follow the assertions of
TestTcpOptionWscaleParser: bytes shorter than 2 and a non-Wscale type
byte are asserts, a length byte other than 3 raises integrity error
(I), a length byte exceeding the provided bytes raises integrity
error (II), and otherwise the option value is min(bytes[2], 14). -/
def TcpOptionWscale.from_bytes (b : List Nat) : TcpOptionWscaleParseResult :=
  match b with
  | t :: l :: rest =>
    if t ≠ TCP__OPTION__WSCALE__TYPE then .assertionError
    else if l ≠ TCP__OPTION__WSCALE__LEN then .integrityError
    else
      match rest with
      | [] => .integrityError
      | v :: _ => .ok (min v TCP__OPTION__WSCALE__MAX_VALUE)
  | _ => .assertionError

/-- C4: parsing a wire-encoded Wscale option (kind byte 3, length byte
3) yields value 14 whenever the value byte exceeds 14, and the wire
value unchanged whenever it is at most 14. -/
theorem tcp_option_wscale_clamp (v : Nat) (rest : List Nat)
    (hv : v < 256) :
    (14 < v →
      TcpOptionWscale.from_bytes (3 :: 3 :: v :: rest) = .ok 14)
    ∧ (v ≤ 14 →
      TcpOptionWscale.from_bytes (3 :: 3 :: v :: rest) = .ok v) := by
  constructor
  · intro h
    have hmin : min v TCP__OPTION__WSCALE__MAX_VALUE = 14 := by
      simp only [TCP__OPTION__WSCALE__MAX_VALUE]
      omega
    simp [TcpOptionWscale.from_bytes, TCP__OPTION__WSCALE__TYPE,
      TCP__OPTION__WSCALE__LEN, hmin]
  · intro h
    have hmin : min v TCP__OPTION__WSCALE__MAX_VALUE = v := by
      simp only [TCP__OPTION__WSCALE__MAX_VALUE]
      omega
    simp [TcpOptionWscale.from_bytes, TCP__OPTION__WSCALE__TYPE,
      TCP__OPTION__WSCALE__LEN, hmin]

/-- Witness: the two parser test vectors, value byte 0xff clamps to 14
and value byte 0x0e parses to 14 unchanged. -/
theorem tcp_option_wscale_clamp_witness :
    TcpOptionWscale.from_bytes [3, 3, 0xff, 90, 72, 48, 80, 65]
      = .ok 14
    ∧ TcpOptionWscale.from_bytes [3, 3, 0x0e, 90, 72, 48, 80, 65]
      = .ok 14 :=
  ⟨(tcp_option_wscale_clamp 0xff [90, 72, 48, 80, 65] (by decide)).1
      (by decide),
    (tcp_option_wscale_clamp 0x0e [90, 72, 48, 80, 65] (by decide)).2
      (by decide)⟩

/-! ### IPv4 mask construction
Embedding of Ip4Mask.__init__ (pytcp/lib/net_addr/ip4_mask.py).  The
inherited helper IpMask._validate_bits
(pytcp/lib/net_addr/ip_mask.py) is absent from the provided sources
and is modelled from the spec: a valid mask is a contiguous run of
high-order 1-bits (one of the 33 prefix masks). -/

/-- Modelled from the spec: IpMask._validate_bits for a 32-bit mask,
true exactly when the value is one of the 33 contiguous prefix masks
(pytcp/lib/net_addr/ip_mask.py is absent from the sources). -/
def isContiguousMask32 (m : Nat) : Bool :=
  (List.range 33).any fun k => m == 2 ^ 32 - 2 ^ (32 - k)

/-- Constructor inputs of Ip4Mask.__init__ that the claim covers,
plus the remaining accepted forms.  A dotted-quad string that matched
IP4__REGEX and socket.inet_aton is represented by its four byte
values; a slash-prefix string matching the regex by its bit count
(0 to 99). -/
inductive Ip4MaskInput where
  | intForm (n : Int)
  | bytesForm (l : List Nat)
  | slashForm (bitCount : Nat)
  | quadForm (a b c d : Nat)
  | noneForm
deriving DecidableEq, Repr

/-- Outcome of Ip4Mask.__init__: the stored 32-bit mask value, or an
Ip4MaskFormatError. -/
inductive Ip4MaskResult where
  | ok (mask : Nat)
  | formatError
deriving DecidableEq, Repr

/-- Big-endian byte-sequence value, as int.from_bytes does. -/
def bytesBE (l : List Nat) : Nat := l.foldl (fun acc b => acc * 256 + b) 0

/-- Embedding of Ip4Mask.__init__: an int is accepted when it equals
itself masked to 32 bits and passes _validate_bits; a bytes-like of
length 4 likewise after int.from_bytes; a slash string when the bit
count is in range(33); a dotted-quad string after inet_aton subject to
_validate_bits; every input falling through all branches raises
Ip4MaskFormatError. -/
def Ip4Mask.construct : Ip4MaskInput → Ip4MaskResult
  | .noneForm => .ok 0
  | .intForm n =>
    if 0 ≤ n ∧ n < 2 ^ 32 ∧ isContiguousMask32 n.toNat then .ok n.toNat
    else .formatError
  | .bytesForm l =>
    if l.length = 4 ∧ isContiguousMask32 (bytesBE l) then .ok (bytesBE l)
    else .formatError
  | .slashForm bitCount =>
    if bitCount < 33 then .ok (2 ^ 32 - 2 ^ (32 - bitCount))
    else .formatError
  | .quadForm a b c d =>
    if isContiguousMask32 (((a * 256 + b) * 256 + c) * 256 + d) then
      .ok (((a * 256 + b) * 256 + c) * 256 + d)
    else .formatError

/-- C5: constructing an Ip4Mask from a 32-bit integer, a 4-byte
sequence, or a dotted-quad string succeeds exactly when the bit
pattern is one of the 33 contiguous prefix masks; every non-contiguous
pattern raises Ip4MaskFormatError. -/
theorem ip4_mask_contiguity (n : Nat) (hn : n < 2 ^ 32)
    (l : List Nat) (hl : l.length = 4)
    (a b c d : Nat) (ha : a < 256) (hb : b < 256) (hc : c < 256)
    (hd : d < 256) :
    (Ip4Mask.construct (.intForm (n : Int))
      = if isContiguousMask32 n then .ok n else .formatError)
    ∧ (Ip4Mask.construct (.bytesForm l)
      = if isContiguousMask32 (bytesBE l) then .ok (bytesBE l)
        else .formatError)
    ∧ (Ip4Mask.construct (.quadForm a b c d)
      = if isContiguousMask32 (((a * 256 + b) * 256 + c) * 256 + d) then
          .ok (((a * 256 + b) * 256 + c) * 256 + d)
        else .formatError) := by
  refine ⟨?_, ?_, ?_⟩
  · have h0 : (0 : Int) ≤ (n : Int) := Int.ofNat_nonneg n
    have h32 : (n : Int) < 2 ^ 32 := by exact_mod_cast hn
    have ht : ((n : Int)).toNat = n := Int.toNat_ofNat n
    simp only [Ip4Mask.construct, ht]
    by_cases hcg : isContiguousMask32 n = true
    · rw [if_pos ⟨h0, h32, hcg⟩, if_pos hcg]
    · rw [if_neg (fun hcontra => hcg hcontra.2.2), if_neg hcg]
  · by_cases hcg : isContiguousMask32 (bytesBE l)
    · simp [Ip4Mask.construct, hl, hcg]
    · simp [Ip4Mask.construct, hcg]
  · by_cases hcg : isContiguousMask32 (((a * 256 + b) * 256 + c) * 256 + d)
    · simp [Ip4Mask.construct, hcg]
    · simp [Ip4Mask.construct, hcg]

/-- Witness: 255.255.255.0 is accepted in all three forms, and the
non-contiguous pattern 255.0.255.0 raises the format error (shown via
the int form through the theorem, since 0xff00ff00 is in range). -/
theorem ip4_mask_contiguity_witness :
    Ip4Mask.construct (.intForm ((0xffffff00 : Nat) : Int))
      = .ok 0xffffff00
    ∧ Ip4Mask.construct (.bytesForm [255, 255, 255, 0]) = .ok 0xffffff00
    ∧ Ip4Mask.construct (.quadForm 255 255 255 0) = .ok 0xffffff00
    ∧ Ip4Mask.construct (.intForm ((0xff00ff00 : Nat) : Int))
      = .formatError := by
  have h1 := ip4_mask_contiguity 0xffffff00 (by decide)
    [255, 255, 255, 0] (by decide) 255 255 255 0
    (by decide) (by decide) (by decide) (by decide)
  have h2 := ip4_mask_contiguity 0xff00ff00 (by decide)
    [255, 0, 255, 0] (by decide) 255 0 255 0
    (by decide) (by decide) (by decide) (by decide)
  refine ⟨?_, ?_, ?_, ?_⟩
  · rw [h1.1]; decide
  · rw [h1.2.1]; decide
  · rw [h1.2.2]; decide
  · rw [h2.1]; decide

/-! ### IPv6 networks and hosts
Embedding of Ip6Host.__init__ and Ip6Host._validate_gateway
(pytcp/lib/net_addr/ip6_host.py).  The classes Ip6Network and Ip6Mask
(pytcp/lib/net_addr/ip6_network.py, ip6_mask.py) are absent from the
provided sources and are modelled from the spec: a network is the pair
(address-with-host-bits-cleared, mask) with masks contiguous
high-order 1-bits, here carried as a prefix length. -/

/-- Modelled from the spec: clearing the host bits of a 128-bit
address under a contiguous mask of the given prefix length. -/
def ip6ClearHostBits (a : Ip6Addr) (plen : Nat) : Ip6Addr :=
  a / 2 ^ (128 - plen) * 2 ^ (128 - plen)

/-- Modelled from the spec: an IPv6 network, the pair of a network
address with host bits cleared and a contiguous mask, carried as a
prefix length (pytcp/lib/net_addr/ip6_network.py is absent from the
sources). -/
structure Ip6Network where
  address : Ip6Addr
  plen : Nat
deriving DecidableEq, Repr

/-- Modelled from the spec: Ip6Network built from an (address, mask)
pair clears the host bits of the address. -/
def Ip6Network.ofAddrMask (a : Ip6Addr) (plen : Nat) : Ip6Network :=
  ⟨ip6ClearHostBits a plen, plen⟩

/-- Modelled from the spec: network membership, the address masked
down to the prefix equals the network address. -/
def Ip6Network.contains (n : Ip6Network) (a : Ip6Addr) : Bool :=
  ip6ClearHostBits a n.plen == n.address

/-- The link-local network fe80::/10 of Ip6Host._validate_gateway. -/
def ip6LinkLocalNet : Ip6Network :=
  ⟨0xfe800000000000000000000000000000, 10⟩

/-- The (address, network, gateway) triple an Ip6Host carries; the
origin tag and expiration time are claim-irrelevant bookkeeping and
are omitted. -/
structure Ip6Host where
  address : Ip6Addr
  network : Ip6Network
  gateway : Option Ip6Addr
deriving DecidableEq, Repr

/-- Embedding of Ip6Host._validate_gateway: the gateway is rejected
when it is set and is outside fe80::/10, or equals the network
address, or equals the host address. -/
def Ip6Host.validateGateway (network : Ip6Network) (address : Ip6Addr)
    (gateway : Option Ip6Addr) : Bool :=
  match gateway with
  | none => true
  | some g =>
    !(!(ip6LinkLocalNet.contains g) || g == network.address
      || g == address)

/-- The constructor input forms of Ip6Host.__init__ the claim covers:
an (Ip6Address, Ip6Network) tuple, an (Ip6Address, Ip6Mask) tuple,
and a well-formed address/prefix string (represented by the parsed
address and prefix length). -/
inductive Ip6HostInput where
  | tupleNet (address : Ip6Addr) (network : Ip6Network)
  | tupleMask (address : Ip6Addr) (plen : Nat)
  | strForm (address : Ip6Addr) (plen : Nat)
deriving DecidableEq, Repr

/-- Outcome of Ip6Host.__init__. -/
inductive Ip6HostResult where
  | ok (host : Ip6Host)
  | sanityError
  | gatewayError
deriving DecidableEq, Repr

/-- Embedding of Ip6Host.__init__: the (address, network) branch
raises Ip6HostSanityError when the address is outside the network and
then calls _validate_gateway; the (address, mask) branch derives the
network from the address and mask and returns at once; the string
branch parses the address and the network from the string and returns
at once.  Neither of the latter two branches calls
_validate_gateway. -/
def Ip6Host.construct (input : Ip6HostInput) (gateway : Option Ip6Addr) :
    Ip6HostResult :=
  match input with
  | .tupleNet a n =>
    if ¬ n.contains a then .sanityError
    else if ¬ Ip6Host.validateGateway n a gateway then .gatewayError
    else .ok ⟨a, n, gateway⟩
  | .tupleMask a plen => .ok ⟨a, Ip6Network.ofAddrMask a plen, gateway⟩
  | .strForm a plen => .ok ⟨a, Ip6Network.ofAddrMask a plen, gateway⟩

/-- The host invariant in the words of the spec: the address lies
within the network, and the gateway, when set, is link-local and
differs from the host address and the network address. -/
def Ip6Host.invariantHolds (h : Ip6Host) : Bool :=
  h.network.contains h.address
    && (match h.gateway with
        | none => true
        | some g => ip6LinkLocalNet.contains g && g != h.address
            && g != h.network.address)

/-- Characterization of _validate_gateway on a set gateway: it passes
exactly when the gateway is link-local and differs from the network
address and the host address. -/
theorem ip6_validateGateway_some_iff (n : Ip6Network) (a g : Ip6Addr) :
    Ip6Host.validateGateway n a (some g) = true ↔
      ip6LinkLocalNet.contains g = true ∧ g ≠ n.address ∧ g ≠ a := by
  simp only [Ip6Host.validateGateway, Bool.not_eq_true', Bool.or_eq_false_iff,
    Bool.not_eq_false', beq_eq_false_iff_ne, ne_eq]
  tauto

/-- C6 counterexample: constructing a host from the (address, mask)
tuple form with a gateway that is not link-local (address
2001:db8::1/64, gateway 2001:db8::99) succeeds without raising
Ip6HostGatewayError, yet violates the gateway part of the host
invariant. -/
theorem ip6_host_gateway_unvalidated_counterexample :
    Ip6Host.construct
        (.tupleMask 0x20010db8000000000000000000000001 64)
        (some 0x20010db8000000000000000000000099)
      = .ok
          { address := 0x20010db8000000000000000000000001
            network :=
              { address := 0x20010db8000000000000000000000000, plen := 64 }
            gateway := some 0x20010db8000000000000000000000099 }
    ∧ Ip6Host.invariantHolds
        { address := 0x20010db8000000000000000000000001
          network :=
            { address := 0x20010db8000000000000000000000000, plen := 64 }
          gateway := some 0x20010db8000000000000000000000099 }
      = false := by
  constructor
  · rfl
  · rfl

/-- C6 (amended): every successfully constructed Ip6Host has its
address inside its network whatever the input form, and inputs whose
address is outside the given network raise Ip6HostSanityError; but
the gateway conditions (link-local, distinct from the host and
network addresses) are enforced, via Ip6HostGatewayError, only for
the address-plus-network tuple form — the address-plus-mask tuple
and string forms store the gateway without validating it and can
never raise either error. -/
theorem ip6_host_invariant_by_form (a : Ip6Addr) (n : Ip6Network)
    (plen : Nat) (gw : Option Ip6Addr) :
    (∀ h, Ip6Host.construct (.tupleNet a n) gw = .ok h →
      Ip6Host.invariantHolds h = true)
    ∧ (n.contains a = false →
      Ip6Host.construct (.tupleNet a n) gw = .sanityError)
    ∧ (n.contains a = true →
      Ip6Host.validateGateway n a gw = false →
      Ip6Host.construct (.tupleNet a n) gw = .gatewayError)
    ∧ (∀ h, Ip6Host.construct (.tupleMask a plen) gw = .ok h →
      h.network.contains h.address = true ∧ h.gateway = gw)
    ∧ Ip6Host.construct (.tupleMask a plen) gw
      = .ok ⟨a, Ip6Network.ofAddrMask a plen, gw⟩
    ∧ Ip6Host.construct (.strForm a plen) gw
      = .ok ⟨a, Ip6Network.ofAddrMask a plen, gw⟩ := by
  have hself : ∀ plen2, (Ip6Network.ofAddrMask a plen2).contains a = true := by
    intro plen2
    simp [Ip6Network.ofAddrMask, Ip6Network.contains]
  refine ⟨?_, ?_, ?_, ?_, rfl, rfl⟩
  · intro h hok
    simp only [Ip6Host.construct] at hok
    by_cases hin : n.contains a = true
    · rw [if_neg (by simp [hin])] at hok
      by_cases hgw : Ip6Host.validateGateway n a gw = true
      · rw [if_neg (by simp [hgw])] at hok
        cases hok
        simp only [Ip6Host.invariantHolds, hin, Bool.true_and]
        cases gw with
        | none => rfl
        | some g =>
          rcases (ip6_validateGateway_some_iff n a g).mp hgw with ⟨hll, hgn, hga⟩
          simp [hll, hgn, hga]
      · rw [if_pos hgw] at hok
        exact absurd hok (by simp)
    · rw [if_pos hin] at hok
      exact absurd hok (by simp)
  · intro hin
    simp [Ip6Host.construct, hin]
  · intro hin hgw
    simp [Ip6Host.construct, hin, hgw]
  · intro h hok
    simp only [Ip6Host.construct, Ip6HostResult.ok.injEq] at hok
    cases hok
    exact ⟨hself plen, rfl⟩

/-- Witness: a valid host over 2001:db8::/64 with a distinct
link-local gateway fe80::1 passes the network-tuple branch and
satisfies the invariant. -/
theorem ip6_host_invariant_by_form_witness :
    Ip6Host.construct
        (.tupleNet 0x20010db8000000000000000000000001
          { address := 0x20010db8000000000000000000000000, plen := 64 })
        (some 0xfe800000000000000000000000000001)
      = .ok
          { address := 0x20010db8000000000000000000000001
            network :=
              { address := 0x20010db8000000000000000000000000, plen := 64 }
            gateway := some 0xfe800000000000000000000000000001 }
    ∧ Ip6Host.invariantHolds
        { address := 0x20010db8000000000000000000000001
          network :=
            { address := 0x20010db8000000000000000000000000, plen := 64 }
          gateway := some 0xfe800000000000000000000000000001 }
      = true := by
  have hc :
      Ip6Host.construct
          (.tupleNet 0x20010db8000000000000000000000001
            { address := 0x20010db8000000000000000000000000, plen := 64 })
          (some 0xfe800000000000000000000000000001)
        = .ok
            { address := 0x20010db8000000000000000000000001
              network :=
                { address := 0x20010db8000000000000000000000000, plen := 64 }
              gateway := some 0xfe800000000000000000000000000001 } := by
    rfl
  refine ⟨hc, ?_⟩
  exact (ip6_host_invariant_by_form 0x20010db8000000000000000000000001
    { address := 0x20010db8000000000000000000000000, plen := 64 } 64
    (some 0xfe800000000000000000000000000001)).1 _ hc

/-! ### Source-address selection
Embedding of pick_local_ip4_address and pick_local_ip6_address
(pytcp/lib/ip_helper.py, lines 100-145).  The iteration over
stack.packet_handler hosts is given the host list as an argument.
The classes Ip4Address/Ip4Network/Ip4Host
(pytcp/lib/net_addr/ip4_address.py, ip4_network.py, ip4_host.py) are
absent from the provided sources; they are modelled from the spec the
same way as their IPv6 counterparts, and a gateway is configured when
it is not None. -/

/-- An IPv4 address: a 32-bit unsigned integer. -/
abbrev Ip4Addr := Nat

/-- Modelled from the spec: an IPv4 network as the pair of a network
address with host bits cleared and a contiguous mask carried as a
prefix length (pytcp/lib/net_addr/ip4_network.py is absent from the
sources). -/
structure Ip4Network where
  address : Ip4Addr
  plen : Nat
deriving DecidableEq, Repr

/-- Modelled from the spec: IPv4 network membership, the address with
host bits cleared equals the network address. -/
def Ip4Network.contains (n : Ip4Network) (a : Ip4Addr) : Bool :=
  a / 2 ^ (32 - n.plen) * 2 ^ (32 - n.plen) == n.address

/-- Modelled from the spec: an IPv4 host as (address, network,
optional gateway); origin and expiration are claim-irrelevant
(pytcp/lib/net_addr/ip4_host.py is absent from the sources). -/
structure Ip4Host where
  address : Ip4Addr
  network : Ip4Network
  gateway : Option Ip4Addr
deriving DecidableEq, Repr

/-- The first for loop of pick_local_ip4_address: the address of the
first host whose network contains the remote address. -/
def pickIp4ByNetwork (remote : Ip4Addr) : List Ip4Host → Option Ip4Addr
  | [] => none
  | h :: t =>
    if h.network.contains remote then some h.address
    else pickIp4ByNetwork remote t

/-- The second for loop of pick_local_ip4_address: the address of the
first host with a gateway set. -/
def pickIp4ByGateway : List Ip4Host → Option Ip4Addr
  | [] => none
  | h :: t => if h.gateway.isSome then some h.address else pickIp4ByGateway t

/-- Embedding of pick_local_ip4_address: first loop, then second loop,
then the unspecified address Ip4Address() = 0. -/
def pick_local_ip4_address (remote : Ip4Addr) (hosts : List Ip4Host) :
    Ip4Addr :=
  match pickIp4ByNetwork remote hosts with
  | some a => a
  | none =>
    match pickIp4ByGateway hosts with
    | some a => a
    | none => 0

/-- The first for loop of pick_local_ip6_address. -/
def pickIp6ByNetwork (remote : Ip6Addr) : List Ip6Host → Option Ip6Addr
  | [] => none
  | h :: t =>
    if h.network.contains remote then some h.address
    else pickIp6ByNetwork remote t

/-- The second for loop of pick_local_ip6_address. -/
def pickIp6ByGateway : List Ip6Host → Option Ip6Addr
  | [] => none
  | h :: t => if h.gateway.isSome then some h.address else pickIp6ByGateway t

/-- Embedding of pick_local_ip6_address: first loop, then second loop,
then the unspecified address Ip6Address() = 0. -/
def pick_local_ip6_address (remote : Ip6Addr) (hosts : List Ip6Host) :
    Ip6Addr :=
  match pickIp6ByNetwork remote hosts with
  | some a => a
  | none =>
    match pickIp6ByGateway hosts with
    | some a => a
    | none => 0

/-- The first loop agrees with List.find? over the containment test. -/
theorem pickIp4ByNetwork_eq_find (remote : Ip4Addr) (hosts : List Ip4Host) :
    pickIp4ByNetwork remote hosts
      = (hosts.find? fun h => h.network.contains remote).map Ip4Host.address := by
  induction hosts with
  | nil => rfl
  | cons h t ih =>
    simp only [pickIp4ByNetwork, List.find?_cons]
    split
    · rename_i hc
      rw [hc]
      rfl
    · rename_i hc
      rw [Bool.not_eq_true] at hc
      rw [hc]
      exact ih

/-- The second loop agrees with List.find? over the gateway test. -/
theorem pickIp4ByGateway_eq_find (hosts : List Ip4Host) :
    pickIp4ByGateway hosts
      = (hosts.find? fun h => h.gateway.isSome).map Ip4Host.address := by
  induction hosts with
  | nil => rfl
  | cons h t ih =>
    simp only [pickIp4ByGateway, List.find?_cons]
    split
    · rename_i hc
      rw [hc]
      rfl
    · rename_i hc
      rw [Bool.not_eq_true] at hc
      rw [hc]
      exact ih

/-- IPv6 variant of pickIp4ByNetwork_eq_find. -/
theorem pickIp6ByNetwork_eq_find (remote : Ip6Addr) (hosts : List Ip6Host) :
    pickIp6ByNetwork remote hosts
      = (hosts.find? fun h => h.network.contains remote).map Ip6Host.address := by
  induction hosts with
  | nil => rfl
  | cons h t ih =>
    simp only [pickIp6ByNetwork, List.find?_cons]
    split
    · rename_i hc
      rw [hc]
      rfl
    · rename_i hc
      rw [Bool.not_eq_true] at hc
      rw [hc]
      exact ih

/-- IPv6 variant of pickIp4ByGateway_eq_find. -/
theorem pickIp6ByGateway_eq_find (hosts : List Ip6Host) :
    pickIp6ByGateway hosts
      = (hosts.find? fun h => h.gateway.isSome).map Ip6Host.address := by
  induction hosts with
  | nil => rfl
  | cons h t ih =>
    simp only [pickIp6ByGateway, List.find?_cons]
    split
    · rename_i hc
      rw [hc]
      rfl
    · rename_i hc
      rw [Bool.not_eq_true] at hc
      rw [hc]
      exact ih

/-- C7: source-address selection returns the address of the first host
whose network contains the remote address; failing that, the address
of the first host with a gateway configured; failing that, the
unspecified address — for both address families. -/
theorem pick_local_ip_address_preference (remote4 : Ip4Addr)
    (hosts4 : List Ip4Host) (remote6 : Ip6Addr) (hosts6 : List Ip6Host) :
    pick_local_ip4_address remote4 hosts4
      = (match hosts4.find? fun h => h.network.contains remote4 with
        | some h => h.address
        | none =>
          match hosts4.find? fun h => h.gateway.isSome with
          | some h => h.address
          | none => 0)
    ∧ pick_local_ip6_address remote6 hosts6
      = (match hosts6.find? fun h => h.network.contains remote6 with
        | some h => h.address
        | none =>
          match hosts6.find? fun h => h.gateway.isSome with
          | some h => h.address
          | none => 0) := by
  constructor
  · simp only [pick_local_ip4_address, pickIp4ByNetwork_eq_find,
      pickIp4ByGateway_eq_find]
    cases hosts4.find? fun h => h.network.contains remote4 with
    | some h => rfl
    | none =>
      cases hosts4.find? fun h => h.gateway.isSome with
      | some h => rfl
      | none => rfl
  · simp only [pick_local_ip6_address, pickIp6ByNetwork_eq_find,
      pickIp6ByGateway_eq_find]
    cases hosts6.find? fun h => h.network.contains remote6 with
    | some h => rfl
    | none =>
      cases hosts6.find? fun h => h.gateway.isSome with
      | some h => rfl
      | none => rfl

/-! ### IPv6 fragment-flow eviction
Embedding of the expired-flow cleanup at the start of
Ip6ExtFragPacketHandlerRx.__defragment_ip6_packet
(pytcp/protocols/ip6_ext_frag/ip6_ext_frag__packet_handler_rx.py,
lines 102-108).  Times are modelled as integers. -/

/-- A fragment-flow table entry: the dict stored per (src, dst, id)
flow, with the payload mapping offset to slice. -/
structure Ip6FragFlowEntry where
  header : List Nat
  timestamp : Int
  last : Bool
  payload : List (Nat × List Nat)
deriving DecidableEq, Repr

/-- Embedding of the dict comprehension that is supposed to clean up
expired flows: a flow is KEPT when
flow.timestamp - time() < IP6__FRAG_FLOW_TIMEOUT. -/
def ip6FragFlowsCleanup
    (flows : List ((Ip6Addr × Ip6Addr × Nat) × Ip6FragFlowEntry))
    (now timeout : Int) :
    List ((Ip6Addr × Ip6Addr × Nat) × Ip6FragFlowEntry) :=
  flows.filter fun f => f.2.timestamp - now < timeout

/-- Whenever every recorded timestamp is in the past and the timeout
is positive, the cleanup keeps every flow: the filter condition
timestamp - now < timeout compares the negated age with the timeout,
so it holds for every past timestamp. -/
theorem ip6FragFlowsCleanup_keeps_past_flows
    (flows : List ((Ip6Addr × Ip6Addr × Nat) × Ip6FragFlowEntry))
    (now timeout : Int)
    (hpast : ∀ f ∈ flows, f.2.timestamp ≤ now) (hpos : 0 < timeout) :
    ip6FragFlowsCleanup flows now timeout = flows := by
  apply List.filter_eq_self.mpr
  intro f hf
  have := hpast f hf
  simp only [decide_eq_true_eq]
  omega

/-- C8 (code bug): a flow recorded at time 0, whose age at the
eviction pass at time 1000 is 1000 seconds — far beyond a 5-second
ip6_frag_flow_timeout — survives the pass, because the filter keeps
flows with timestamp - time() < timeout instead of
time() - timestamp < timeout. -/
theorem ip6_frag_flow_timeout_eviction_dead :
    ip6FragFlowsCleanup
        [((1, 2, 3),
          { header := [], timestamp := 0, last := false, payload := [] })]
        1000 5
      = [((1, 2, 3),
          { header := [], timestamp := 0, last := false, payload := [] })]
    ∧ (1000 : Int) - 0 > 5 :=
  ⟨ip6FragFlowsCleanup_keeps_past_flows
      [((1, 2, 3),
        { header := [], timestamp := 0, last := false, payload := [] })]
      1000 5 (by intro f hf; simp at hf; simp [hf]) (by decide),
    by decide⟩

/-! ### ICMPv4 Echo Reply message codec
Embedding of Icmp4EchoReplyMessage
(pytcp/protocols/icmp4/message/icmp4_message__echo_reply.py): the
field invariants of __post_init__, the assembler __bytes__ (which
packs a zero checksum; the enclosing assembler recomputes it later),
and the parser from_bytes.  Icmp4Type.ECHO_REPLY is 0 and
Icmp4EchoReplyCode has the single member DEFAULT = 0. -/

/-- Maximum IPv4 payload: 65535 minus the 20-byte header
(pytcp/protocols/ip4/ip4__header.py). -/
def IP4__PAYLOAD__MAX_LEN : Nat := 65535 - 20

/-- Header length of the ICMPv4 Echo Reply message. -/
def ICMP4__ECHO_REPLY__LEN : Nat := 8

/-- The ICMPv4 Echo Reply message fields; the type field is fixed at
Icmp4Type.ECHO_REPLY and carried implicitly. -/
structure Icmp4EchoReplyMessage where
  code : Nat
  cksum : Nat
  id : Nat
  seq : Nat
  data : List Nat
deriving DecidableEq, Repr

/-- The __post_init__ invariants: the code is the single member
DEFAULT = 0 of Icmp4EchoReplyCode, cksum/id/seq are 16-bit, the data
bytes are bytes, and the data length is capped. -/
def Icmp4EchoReplyMessage.wellFormed (m : Icmp4EchoReplyMessage) : Prop :=
  m.code = 0 ∧ m.cksum < 2 ^ 16 ∧ m.id < 2 ^ 16 ∧ m.seq < 2 ^ 16
    ∧ (∀ b ∈ m.data, b < 256)
    ∧ m.data.length ≤ IP4__PAYLOAD__MAX_LEN - ICMP4__ECHO_REPLY__LEN

instance (m : Icmp4EchoReplyMessage) : Decidable m.wellFormed := by
  unfold Icmp4EchoReplyMessage.wellFormed
  infer_instance

/-- Big-endian bytes of a 16-bit value, as struct.pack uses for H. -/
def word16be (n : Nat) : List Nat := [n / 256 % 256, n % 256]

/-- Embedding of Icmp4EchoReplyMessage.__bytes__: struct.pack of
type=0, code, a zero checksum, id and seq, followed by the data. -/
def Icmp4EchoReplyMessage.toBytes (m : Icmp4EchoReplyMessage) : List Nat :=
  [0, m.code] ++ word16be 0 ++ word16be m.id ++ word16be m.seq ++ m.data

/-- Outcome of Icmp4EchoReplyMessage.from_bytes: the message, an
AssertionError (wrong type byte, or a __post_init__ violation), a
struct.error (fewer than 8 bytes), or an enum failure of
Icmp4EchoReplyCode.from_int on a non-DEFAULT code byte. -/
inductive Icmp4ParseResult where
  | ok (m : Icmp4EchoReplyMessage)
  | assertionError
  | structError
  | codeValueError
deriving DecidableEq, Repr

/-- Embedding of Icmp4EchoReplyMessage.from_bytes: unpack the 8-byte
header, assert the type byte is Icmp4Type.ECHO_REPLY = 0, convert the
code byte through Icmp4EchoReplyCode.from_int (whose only member is
0), and take the remaining bytes as data; the resulting dataclass
re-runs the __post_init__ length cap on the data. -/
def Icmp4EchoReplyMessage.from_bytes : List Nat → Icmp4ParseResult
  | t :: c :: k1 :: k2 :: i1 :: i2 :: s1 :: s2 :: rest =>
    if t ≠ 0 then .assertionError
    else if c ≠ 0 then .codeValueError
    else if rest.length > IP4__PAYLOAD__MAX_LEN - ICMP4__ECHO_REPLY__LEN then
      .assertionError
    else
      .ok
        { code := c, cksum := k1 * 256 + k2, id := i1 * 256 + i2,
          seq := s1 * 256 + s2, data := rest }
  | _ => .structError

/-- C9: for every well-formed ICMPv4 Echo Reply message M, parsing the
assembled bytes recovers M on every field except the checksum, which
the message-level assembler emits as the zero placeholder that the
enclosing ICMPv4 assembler overwrites with the computed checksum. -/
theorem icmp4_echo_reply_roundtrip (m : Icmp4EchoReplyMessage)
    (hwf : m.wellFormed) :
    Icmp4EchoReplyMessage.from_bytes m.toBytes
      = .ok { m with cksum := 0 } := by
  obtain ⟨hcode, hck, hid, hseq, hdata, hlen⟩ := hwf
  simp only [Icmp4EchoReplyMessage.toBytes, word16be,
    Icmp4EchoReplyMessage.from_bytes, List.cons_append, List.nil_append]
  rw [if_neg (by omega), if_neg (by omega), if_neg (by omega)]
  have hidr : m.id / 256 % 256 * 256 + m.id % 256 = m.id := by omega
  have hseqr : m.seq / 256 % 256 * 256 + m.seq % 256 = m.seq := by omega
  simp [hcode, hidr, hseqr]

/-- Witness: the spec scenario message id=0x1234, seq=1, data "abcd"
(with a stale nonzero checksum field) round-trips to itself with the
checksum reset to the placeholder. -/
theorem icmp4_echo_reply_roundtrip_witness :
    Icmp4EchoReplyMessage.from_bytes
        (Icmp4EchoReplyMessage.toBytes
          { code := 0, cksum := 0xabcd, id := 0x1234, seq := 1,
            data := [97, 98, 99, 100] })
      = .ok
          { code := 0, cksum := 0, id := 0x1234, seq := 1,
            data := [97, 98, 99, 100] } :=
  icmp4_echo_reply_roundtrip
    { code := 0, cksum := 0xabcd, id := 0x1234, seq := 1,
      data := [97, 98, 99, 100] }
    (by decide)

/-! ### Socket name getters
Embedding of Socket.getsockname and Socket.getpeername
(pytcp/socket/socket.py, lines 210-222).  The address attributes are
kept abstract; the str() conversion is an arbitrary rendering
function. -/

/-- The address and port attributes of the Socket base class. -/
structure StackSocket (A : Type) where
  local_ip_address : A
  remote_ip_address : A
  local_port : Nat
  remote_port : Nat

/-- Embedding of Socket.getsockname: the string form of the local
address paired with the local port. -/
def StackSocket.getsockname {A : Type} (toStr : A → String)
    (s : StackSocket A) : String × Nat :=
  (toStr s.local_ip_address, s.local_port)

/-- Embedding of Socket.getpeername: the string form of the remote
address paired with self._local_port. -/
def StackSocket.getpeername {A : Type} (toStr : A → String)
    (s : StackSocket A) : String × Nat :=
  (toStr s.remote_ip_address, s.local_port)

/-- C10: getpeername pairs the remote address with the LOCAL port, so
its port component always coincides with getsockname's and, whenever
the local and remote ports differ, is not the remote port; getsockname
returns the local address with the local port. -/
theorem socket_getpeername_returns_local_port {A : Type}
    (toStr : A → String) (s : StackSocket A) :
    s.getpeername toStr = (toStr s.remote_ip_address, s.local_port)
    ∧ s.getsockname toStr = (toStr s.local_ip_address, s.local_port)
    ∧ (s.getpeername toStr).2 = (s.getsockname toStr).2
    ∧ (s.local_port ≠ s.remote_port →
      (s.getpeername toStr).2 ≠ s.remote_port) := by
  refine ⟨rfl, rfl, rfl, ?_⟩
  intro hne
  exact hne

/-- Witness: a connected socket with local port 80 and remote port
54321 reports port 80 from both getsockname and getpeername. -/
theorem socket_getpeername_returns_local_port_witness :
    (StackSocket.getpeername (fun n : Nat => toString n)
        { local_ip_address := 0xc0a80907, remote_ip_address := 0xc0a80966,
          local_port := 80, remote_port := 54321 }).2 ≠ 54321 :=
  (socket_getpeername_returns_local_port (fun n : Nat => toString n)
      { local_ip_address := 0xc0a80907, remote_ip_address := 0xc0a80966,
        local_port := 80, remote_port := 54321 }).2.2.2 (by decide)

end PyTCP
